import Mathlib

/-!
Verification development for the SynapticOS Trinity orchestration core.

The development shallowly embeds the two core source modules:

* `quantum_orchestrator.py` — the `QuantumOrchestrator` class: its FIFO task
  queue (`asyncio.Queue`), task execution (`_execute_ai_task`), queue draining
  (`_process_task_queue`), submission (`submit_task`), result polling
  (`get_task_result`), and the adaptive `QuantumState` vector with its
  tick-driven update (`_update_consciousness_metrics`) and event-driven update
  (`_update_quantum_state`).
* `trinity_api_server.py` — the `TrinityAIOrchestrator` class: request
  fingerprinting (`json.dumps(..., sort_keys=True)` fed to a digest), the
  response cache, keyword routing (`_route_request`), and `process_request`.

Modelling conventions:

* Python floats are modelled as exact rationals (`ℚ`); all constants in the
  source (0.001, 0.0005, 0.01, 0.5, 1.001) are exactly representable.
* `datetime.now()` timestamps are modelled as a `ℕ` clock value passed in by
  the caller; `uuid.uuid4()` identifiers are modelled as `String` parameters.
* Python `dict`s that the code mutates by key assignment are modelled as
  association lists with first-match lookup (`lookupA`) and
  replace-or-append assignment (`setA`), matching `d[k] = v` / `d.get(k)`.
* Logging calls are modelled as an explicit event trace; database writes
  (sqlite persistence) and `asyncio.sleep` are external I/O with no effect on
  the in-memory state the claims are about, and are not modelled.
-/

/-- First-match association-list lookup, the model of Python `d.get(k)` /
`k in d` on a dict whose insertion history is the list. -/
def lookupA {β : Type} : List (String × β) → String → Option β
  | [], _ => none
  | (k', v) :: rest, k => if k' = k then some v else lookupA rest k

/-- Replace-or-append association-list assignment, the model of Python
`d[k] = v`: an existing key keeps its position and gets the new value, a new
key is appended. -/
def setA {β : Type} : List (String × β) → String → β → List (String × β)
  | [], k, v => [(k, v)]
  | (k', v') :: rest, k, v =>
      if k' = k then (k, v) :: rest else (k', v') :: setA rest k v

theorem lookupA_setA_self {β : Type} :
    ∀ (l : List (String × β)) (k : String) (v : β),
      lookupA (setA l k v) k = some v := by
  intro l k v
  induction l with
  | nil => simp [setA, lookupA]
  | cons hd tl ih =>
      by_cases h : hd.1 = k
      · simp [setA, lookupA, h]
      · simp [setA, lookupA, h, ih]

/-! ## QuantumState (`quantum_orchestrator.py`, `QuantumState` dataclass) -/

/-- Embedding of the `QuantumState` dataclass: `consciousness_level`,
`quantum_coherence`, `neural_activity` (a dict of named activity channels),
`memory_coherence`, `learning_velocity`, `timestamp`, `state_id`. -/
structure QuantumState where
  consciousness_level : ℚ
  quantum_coherence : ℚ
  neural_activity : List (String × ℚ)
  memory_coherence : ℚ
  learning_velocity : ℚ
  timestamp : ℕ
  state_id : String
deriving DecidableEq, Repr

/-- Embedding of `QuantumOrchestrator.initialize_quantum_state` (source lines
171–186); `now` models `datetime.now()` and `sid` models `str(uuid.uuid4())`. -/
def initialize_quantum_state (now : ℕ) (sid : String) : QuantumState :=
  { consciousness_level := 0.7
    quantum_coherence := 0.8
    neural_activity :=
      [("prefrontal_cortex", 0.6), ("hippocampus", 0.4),
       ("amygdala", 0.3), ("neural_networks", 0.8)]
    memory_coherence := 0.75
    learning_velocity := 0.1
    timestamp := now
    state_id := sid }

/-- Embedding of `QuantumOrchestrator._update_consciousness_metrics` (source
lines 338–356), the tick-driven update: `consciousness_level` and
`quantum_coherence` are incremented by fixed deltas and clamped by `min 1`;
every `neural_activity` channel takes the homeostatic step
`max 0 (min 1 (current + (0.5 - current) * 0.01))`; the timestamp is
refreshed.  (The source's `if not self.quantum_state: return` guard drops out
because the model always has a state value.) -/
def update_consciousness_metrics (now : ℕ) (s : QuantumState) : QuantumState :=
  { s with
    consciousness_level := min 1 (s.consciousness_level + 0.001)
    quantum_coherence := min 1 (s.quantum_coherence + 0.0005)
    neural_activity :=
      s.neural_activity.map
        (fun p => (p.1, max 0 (min 1 (p.2 + (0.5 - p.2) * 0.01))))
    timestamp := now }

/-- Embedding of `QuantumOrchestrator._update_quantum_state` (source lines
380–385), the event-driven update: when `active_count > 0` the learning
velocity is scaled by 1.001 and clamped by `min 1`, otherwise nothing
changes. -/
def update_quantum_state (active_count : ℕ) (s : QuantumState) : QuantumState :=
  if 0 < active_count then
    { s with learning_velocity := min 1 (s.learning_velocity * 1.001) }
  else s

/-- One update of the shared quantum state: either a consciousness-monitor
tick (`_update_consciousness_metrics`, carrying the tick's wall-clock value)
or an orchestration-loop event (`_update_quantum_state`, carrying the
`len(self.active_tasks)` count observed at that moment). -/
inductive StateStep where
  | tick (now : ℕ)
  | event (active_count : ℕ)
deriving DecidableEq, Repr

/-- Apply one `StateStep` to a `QuantumState`. -/
def apply_step : StateStep → QuantumState → QuantumState
  | StateStep.tick now, s => update_consciousness_metrics now s
  | StateStep.event n, s => update_quantum_state n s

/-- Run a sequence of tick/event updates from a starting state. -/
def run_steps (steps : List StateStep) (s : QuantumState) : QuantumState :=
  steps.foldl (fun acc st => apply_step st acc) s

/-- The value `x` lies in the unit interval. -/
def in_unit (x : ℚ) : Prop := 0 ≤ x ∧ x ≤ 1

/-- Every metric and every activity-channel value of the state lies in
`[0,1]`. -/
def state_in_unit (s : QuantumState) : Prop :=
  in_unit s.consciousness_level ∧ in_unit s.quantum_coherence ∧
  in_unit s.memory_coherence ∧ in_unit s.learning_velocity ∧
  ∀ p ∈ s.neural_activity, in_unit p.2

theorem in_unit_min_one_add {x d : ℚ} (hd : 0 ≤ d) (h : in_unit x) :
    in_unit (min 1 (x + d)) :=
  ⟨le_min zero_le_one (by have := h.1; linarith), min_le_left _ _⟩

theorem in_unit_clamp (y : ℚ) : in_unit (max 0 (min 1 y)) :=
  ⟨le_max_left _ _, max_le zero_le_one (min_le_left _ _)⟩

theorem in_unit_min_one_mul {x : ℚ} (h : 0 ≤ x) :
    in_unit (min 1 (x * 1.001)) :=
  ⟨le_min zero_le_one (mul_nonneg h (by norm_num)), min_le_left _ _⟩

theorem state_in_unit_tick (now : ℕ) {s : QuantumState}
    (h : state_in_unit s) : state_in_unit (update_consciousness_metrics now s) := by
  obtain ⟨h1, h2, h3, h4, h5⟩ := h
  refine ⟨in_unit_min_one_add (by norm_num) h1,
          in_unit_min_one_add (by norm_num) h2, h3, h4, ?_⟩
  intro p hp
  simp only [update_consciousness_metrics, List.mem_map] at hp
  obtain ⟨q, _, rfl⟩ := hp
  exact in_unit_clamp _

theorem state_in_unit_event (n : ℕ) {s : QuantumState}
    (h : state_in_unit s) : state_in_unit (update_quantum_state n s) := by
  obtain ⟨h1, h2, h3, h4, h5⟩ := h
  unfold update_quantum_state
  by_cases hn : 0 < n
  · simp only [hn, if_true]
    exact ⟨h1, h2, h3, in_unit_min_one_mul h4.1, h5⟩
  · simp only [hn, if_false]
    exact ⟨h1, h2, h3, h4, h5⟩

theorem state_in_unit_step (st : StateStep) {s : QuantumState}
    (h : state_in_unit s) : state_in_unit (apply_step st s) := by
  cases st with
  | tick now => exact state_in_unit_tick now h
  | event n => exact state_in_unit_event n h

theorem state_in_unit_run (steps : List StateStep) :
    ∀ {s : QuantumState}, state_in_unit s → state_in_unit (run_steps steps s) := by
  induction steps with
  | nil => intro s h; exact h
  | cons st rest ih =>
      intro s h
      exact ih (state_in_unit_step st h)

theorem state_in_unit_init (now : ℕ) (sid : String) :
    state_in_unit (initialize_quantum_state now sid) := by
  unfold state_in_unit in_unit initialize_quantum_state
  refine ⟨⟨by norm_num, by norm_num⟩, ⟨by norm_num, by norm_num⟩,
          ⟨by norm_num, by norm_num⟩, ⟨by norm_num, by norm_num⟩, ?_⟩
  intro p hp
  simp only [List.mem_cons, List.not_mem_nil, or_false] at hp
  rcases hp with rfl | rfl | rfl | rfl <;> exact ⟨by norm_num, by norm_num⟩

/-- C5: starting from the initial quantum state, after any sequence of
tick-driven updates (`_update_consciousness_metrics`) and event-driven updates
(`_update_quantum_state`), every StateVector metric — consciousness level,
quantum coherence, memory coherence, learning velocity — and every
activity-channel value lies in the interval `[0,1]`. -/
theorem state_vector_bounded (now : ℕ) (sid : String) (steps : List StateStep) :
    state_in_unit (run_steps steps (initialize_quantum_state now sid)) :=
  state_in_unit_run steps (state_in_unit_init now sid)

theorem lv_le_apply_step {s : QuantumState} (h : state_in_unit s)
    (st : StateStep) :
    s.learning_velocity ≤ (apply_step st s).learning_velocity := by
  cases st with
  | tick now => simp [apply_step, update_consciousness_metrics]
  | event n =>
      simp only [apply_step, update_quantum_state]
      by_cases hn : 0 < n
      · simp only [hn, if_true]
        refine le_min h.2.2.2.1.2 ?_
        have h0 : 0 ≤ s.learning_velocity := h.2.2.2.1.1
        nlinarith
      · simp [hn]

theorem lv_le_run (extra : List StateStep) :
    ∀ {s : QuantumState}, state_in_unit s →
      s.learning_velocity ≤ (run_steps extra s).learning_velocity := by
  induction extra with
  | nil => intro s _; exact le_refl _
  | cons st rest ih =>
      intro s h
      exact le_trans (lv_le_apply_step h st) (ih (state_in_unit_step st h))

/-- C6: along any run from the initial state, the learning velocity is
monotonically non-decreasing — extending the run never lowers it; a tick
update leaves it unchanged; the event-driven update rescales it by the factor
1.001 clamped at 1.0 exactly when at least one task is in flight, and leaves
it unchanged when no task is. -/
theorem learning_velocity_monotone (now : ℕ) (sid : String)
    (steps extra : List StateStep) (tnow n : ℕ) :
    (run_steps steps (initialize_quantum_state now sid)).learning_velocity ≤
      (run_steps (steps ++ extra) (initialize_quantum_state now sid)).learning_velocity ∧
    (update_consciousness_metrics tnow
        (run_steps steps (initialize_quantum_state now sid))).learning_velocity =
      (run_steps steps (initialize_quantum_state now sid)).learning_velocity ∧
    (update_quantum_state n
        (run_steps steps (initialize_quantum_state now sid))).learning_velocity =
      (if 0 < n then
        min 1 ((run_steps steps (initialize_quantum_state now sid)).learning_velocity * 1.001)
       else (run_steps steps (initialize_quantum_state now sid)).learning_velocity) := by
  refine ⟨?_, rfl, ?_⟩
  · have hinv : state_in_unit (run_steps steps (initialize_quantum_state now sid)) :=
      state_in_unit_run steps (state_in_unit_init now sid)
    have : run_steps (steps ++ extra) (initialize_quantum_state now sid) =
        run_steps extra (run_steps steps (initialize_quantum_state now sid)) := by
      simp [run_steps, List.foldl_append]
    rw [this]
    exact lv_le_run extra hinv
  · unfold update_quantum_state
    by_cases hn : 0 < n <;> simp [hn]

/-- C8: the tick-driven update moves each activity channel toward the midpoint
0.5 by a step proportional to its distance — the new value is
`max 0 (min 1 (current + (0.5 - current) * 0.01))` — and increments the
consciousness (awareness) and coherence metrics by the fixed deltas 0.001 and
0.0005 respectively, each clamped at the ceiling 1.0; memory coherence and
learning velocity are untouched. -/
theorem tick_update_formula (now : ℕ) (s : QuantumState) :
    (update_consciousness_metrics now s).consciousness_level =
      min 1 (s.consciousness_level + 0.001) ∧
    (update_consciousness_metrics now s).quantum_coherence =
      min 1 (s.quantum_coherence + 0.0005) ∧
    (∀ i : ℕ,
      ((update_consciousness_metrics now s).neural_activity)[i]? =
        (s.neural_activity[i]?).map
          (fun p => (p.1, max 0 (min 1 (p.2 + (0.5 - p.2) * 0.01))))) ∧
    (update_consciousness_metrics now s).memory_coherence = s.memory_coherence ∧
    (update_consciousness_metrics now s).learning_velocity = s.learning_velocity := by
  refine ⟨rfl, rfl, ?_, rfl, rfl⟩
  intro i
  simp [update_consciousness_metrics, List.getElem?_map]

/-! ## Tasks and the orchestration queue (`quantum_orchestrator.py`) -/

/-- Embedding of the `AIModel` enum. -/
inductive AIModel where
  | claudeSonnet
  | gpt4Turbo
  | geminiPro
  | localLlama
  | trinityHybrid
deriving DecidableEq, Repr

/-- Embedding of the `AITask` dataclass (source lines 63–79).  `deadline` and
`created_at` timestamps are `ℕ` clock values; the `input_data` and `metadata`
dicts are association lists of string fields. -/
structure AITask where
  task_id : String
  task_type : String
  priority : Int
  input_data : List (String × String)
  model_preference : AIModel
  deadline : Option ℕ
  dependencies : List String
  metadata : List (String × String)
  status : String := "pending"
  created_at : ℕ := 0
deriving DecidableEq, Repr

/-- Shape of the dictionaries returned by the four inference simulations
(`_trinity_hybrid_inference`, `_claude_inference`, `_local_llama_inference`,
`_fallback_inference`); only the trinity-hybrid one fills the two optional
quantum fields. -/
structure InfResult where
  model : String
  output : String
  confidence : ℚ
  quantum_coherence : Option ℚ := none
  consciousness_level : Option ℚ := none
deriving DecidableEq, Repr

/-- Embedding of `_trinity_hybrid_inference` (source lines 286–299). -/
def trinity_hybrid_inference (qs : QuantumState) (task : AITask) : InfResult :=
  { model := "trinity-consciousness-v1"
    output := "Trinity consciousness response for " ++ task.task_type
    confidence := 0.95
    quantum_coherence := some qs.quantum_coherence
    consciousness_level := some qs.consciousness_level }

/-- Embedding of `_claude_inference` (source lines 301–308). -/
def claude_inference (task : AITask) : InfResult :=
  { model := "claude-3-5-sonnet"
    output := "Claude response for " ++ task.task_type
    confidence := 0.88 }

/-- Embedding of `_local_llama_inference` (source lines 310–317). -/
def local_llama_inference (task : AITask) : InfResult :=
  { model := "llama-3.1-70b"
    output := "Llama response for " ++ task.task_type
    confidence := 0.82 }

/-- Embedding of `_fallback_inference` (source lines 319–325). -/
def fallback_inference (task : AITask) : InfResult :=
  { model := "fallback"
    output := "Fallback response for " ++ task.task_type
    confidence := 0.60 }

/-- Embedding of `_route_to_ai_model` (source lines 273–284), dispatching on
`model_preference`; `qs` is the live `self.quantum_state` read by the
trinity-hybrid branch.  The routing/backend pipeline can raise in Python
(`async` cancellation, a `None` quantum state, a real backend error), so its
model type is `Except`; the concrete simulations always succeed. -/
def route_to_ai_model (qs : QuantumState) (task : AITask) :
    Except String InfResult :=
  match task.model_preference with
  | AIModel.trinityHybrid => Except.ok (trinity_hybrid_inference qs task)
  | AIModel.claudeSonnet => Except.ok (claude_inference task)
  | AIModel.localLlama => Except.ok (local_llama_inference task)
  | _ => Except.ok (fallback_inference task)

/-- The per-task records placed into `self.result_store` by
`_execute_ai_task`: on success `{"result": ..., "completed_at": ...,
"quantum_state": ...}`, on failure `{"error": str(e), "failed_at": ...}`. -/
inductive ResultRecord where
  | success (result : InfResult) (completed_at : ℕ) (quantum_state : QuantumState)
  | failure (error : String) (failed_at : ℕ)
deriving DecidableEq, Repr

/-- The orchestrator fields that the queue/execution pipeline touches:
`task_queue` is an `asyncio.Queue()` — a plain FIFO buffer, modelled
front-of-list-first; `result_store` and `active_tasks` are dicts; and the
live `quantum_state`. -/
structure OrchState where
  task_queue : List AITask
  result_store : List (String × ResultRecord)
  active_tasks : List (String × AITask)
  quantum_state : QuantumState
deriving DecidableEq, Repr

/-- Embedding of `QuantumOrchestrator.submit_task` (source lines 423–427): the
task is put on the FIFO queue, unconditionally, and its `task_id` is returned.
There is no validation of any kind in the source. -/
def submit_task (st : OrchState) (task : AITask) : OrchState × String :=
  ({ st with task_queue := st.task_queue ++ [task] }, task.task_id)

/-- Embedding of `QuantumOrchestrator.get_task_result` (source lines 429–431). -/
def get_task_result (st : OrchState) (task_id : String) : Option ResultRecord :=
  lookupA st.result_store task_id

/-- Embedding of `_execute_ai_task` (source lines 241–271).  The task is put
into `active_tasks` and marked `"running"`; the `try` block routes it to a
backend (`route`, instantiated with `route_to_ai_model st.quantum_state` for
the source's concrete pipeline); on success the result record is stored and
the status becomes `"completed"`; the `except` clause catches any exception
`e`, marks the task `"failed"` and stores the error record.  Dependencies,
priority and deadline are never consulted.  (`_learn_from_execution` only
writes to the sqlite store and is not modelled.) -/
def execute_ai_task (route : AITask → Except String InfResult) (now : ℕ)
    (st : OrchState) (task : AITask) : OrchState :=
  let running := { task with status := "running" }
  let st1 := { st with active_tasks := setA st.active_tasks task.task_id running }
  match route running with
  | Except.ok r =>
      { st1 with
        result_store :=
          setA st1.result_store task.task_id
            (ResultRecord.success r now st1.quantum_state)
        active_tasks :=
          setA st1.active_tasks task.task_id { running with status := "completed" } }
  | Except.error e =>
      { st1 with
        result_store :=
          setA st1.result_store task.task_id (ResultRecord.failure e now)
        active_tasks :=
          setA st1.active_tasks task.task_id { running with status := "failed" } }

/-- The drain loop of `_process_task_queue` (source lines 232–239): while the
queue is non-empty, take the front task and execute it.  The second component
records the identifiers of the tasks in the order they were dequeued. -/
def process_task_queue_aux (route : AITask → Except String InfResult) (now : ℕ) :
    List AITask → OrchState → OrchState × List String
  | [], st => (st, [])
  | task :: rest, st =>
      let st1 := execute_ai_task route now st task
      let p := process_task_queue_aux route now rest st1
      (p.1, task.task_id :: p.2)

/-- Embedding of `_process_task_queue` (source lines 232–239): drain the whole
FIFO queue, executing each task as it is dequeued. -/
def process_task_queue (route : AITask → Except String InfResult) (now : ℕ)
    (st : OrchState) : OrchState :=
  (process_task_queue_aux route now st.task_queue { st with task_queue := [] }).1

/-- The order in which `_process_task_queue` dequeues and dispatches the
queued tasks, as a list of task identifiers. -/
def dispatch_order (route : AITask → Except String InfResult) (now : ℕ)
    (st : OrchState) : List String :=
  (process_task_queue_aux route now st.task_queue { st with task_queue := [] }).2

theorem process_task_queue_aux_trace
    (route : AITask → Except String InfResult) (now : ℕ) :
    ∀ (q : List AITask) (st : OrchState),
      (process_task_queue_aux route now q st).2 = q.map AITask.task_id := by
  intro q
  induction q with
  | nil => intro st; rfl
  | cons task rest ih =>
      intro st
      simp [process_task_queue_aux, ih]

/-- A fixed task used in concrete counterexamples: priority 1, no
dependencies, preferring the Claude backend. -/
def taskLow : AITask :=
  { task_id := "low", task_type := "general", priority := 1, input_data := [],
    model_preference := AIModel.claudeSonnet, deadline := none,
    dependencies := [], metadata := [], status := "pending", created_at := 0 }

/-- A strictly higher-priority task submitted after `taskLow`. -/
def taskHigh : AITask := { taskLow with task_id := "high", priority := 5 }

/-- Orchestrator state in which `taskLow` was submitted before `taskHigh`,
both pending; nothing executed yet. -/
def stPrio : OrchState :=
  { task_queue := [taskLow, taskHigh], result_store := [], active_tasks := [],
    quantum_state := initialize_quantum_state 0 "s0" }

/-- C1 counterexample: with the lower-priority task `taskLow` (priority 1)
submitted before the strictly higher-priority `taskHigh` (priority 5) and both
in the queue at the same time, `_process_task_queue` dequeues `taskLow` first
and `taskHigh` strictly later — the queue is a plain FIFO, so the claimed
priority ordering fails. -/
theorem priority_not_respected :
    taskLow.priority < taskHigh.priority ∧
    dispatch_order (route_to_ai_model stPrio.quantum_state) 0 stPrio =
      ["low", "high"] := by
  constructor
  · decide
  · rfl

/-- C1 (amended): dequeue order is exactly submission (FIFO) order — for any
backend pipeline, any clock and any queue contents, `_process_task_queue`
dispatches the queued tasks front to back, ignoring priority entirely; in
particular tasks of equal priority are dequeued in submission order. -/
theorem dequeue_is_fifo (route : AITask → Except String InfResult) (now : ℕ)
    (st : OrchState) :
    dispatch_order route now st = st.task_queue.map AITask.task_id :=
  process_task_queue_aux_trace route now st.task_queue _

/-- A task depending on task `"d1"`. -/
def taskDep : AITask := { taskLow with task_id := "t2", dependencies := ["d1"] }

/-- Orchestrator state in which dependency `"d1"` already terminated with a
failed result record, and the dependent `taskDep` sits in the queue. -/
def stDep : OrchState :=
  { task_queue := [taskDep],
    result_store := [("d1", ResultRecord.failure "boom" 0)],
    active_tasks := [],
    quantum_state := initialize_quantum_state 0 "s0" }

/-- C2 counterexample: `taskDep` depends on `"d1"`, whose stored result is a
failure, yet `_process_task_queue` dequeues and dispatches `taskDep` anyway
and it finishes `"completed"` with an ordinary success record — it is neither
held back nor marked failed with a "dependency failed" reason.  Dependencies
are never consulted anywhere in the code. -/
theorem dependency_failure_ignored :
    get_task_result stDep "d1" = some (ResultRecord.failure "boom" 0) ∧
    dispatch_order (route_to_ai_model stDep.quantum_state) 0 stDep = ["t2"] ∧
    (lookupA (process_task_queue (route_to_ai_model stDep.quantum_state) 0
        stDep).active_tasks "t2").map AITask.status = some "completed" ∧
    get_task_result (process_task_queue (route_to_ai_model stDep.quantum_state) 0
        stDep) "t2" =
      some (ResultRecord.success (claude_inference { taskDep with status := "running" })
        0 stDep.quantum_state) := by
  refine ⟨rfl, rfl, rfl, rfl⟩

/-- C2 (amended): dequeue and dispatch ignore dependencies completely — every
task in the queue is dispatched, whatever its dependency list and whatever
result records (including failures of its dependencies) the store holds; no
"dependency failed" handling exists. -/
theorem dependencies_never_block_dispatch
    (route : AITask → Except String InfResult) (now : ℕ) (st : OrchState)
    (task : AITask) (h : task ∈ st.task_queue) :
    task.task_id ∈ dispatch_order route now st := by
  rw [dispatch_order, process_task_queue_aux_trace]
  exact List.mem_map_of_mem AITask.task_id h

/-- Witness for the amended C2 at a concrete input: the dependent task whose
dependency has failed is in the queue, and is dispatched nevertheless. -/
theorem dependencies_never_block_dispatch_witness :
    taskDep.task_id ∈
      dispatch_order (route_to_ai_model stDep.quantum_state) 0 stDep :=
  dependencies_never_block_dispatch (route_to_ai_model stDep.quantum_state) 0
    stDep taskDep (by simp [stDep])

/-- A submission missing its required fields: empty task identifier, empty
task type, empty payload. -/
def taskMalformed : AITask :=
  { task_id := "", task_type := "", priority := 0, input_data := [],
    model_preference := AIModel.claudeSonnet, deadline := none,
    dependencies := [], metadata := [], status := "pending", created_at := 0 }

/-- An orchestrator state with an empty queue and empty stores. -/
def stEmpty : OrchState :=
  { task_queue := [], result_store := [], active_tasks := [],
    quantum_state := initialize_quantum_state 0 "s0" }

/-- C3 counterexample: a submission whose required fields are missing (empty
identifier, empty type, empty payload) is NOT rejected — `submit_task`
enqueues it and returns its (empty) identifier; no `ValidationError` exists
anywhere in the code. -/
theorem malformed_submission_not_rejected :
    (submit_task stEmpty taskMalformed).1.task_queue = [taskMalformed] ∧
    (submit_task stEmpty taskMalformed).2 = "" := ⟨rfl, rfl⟩

/-- C3 (amended): `submit_task` performs no validation at all — every task,
well-formed or not, is enqueued at the back of the FIFO queue without
blocking, no other state is touched, and the task's identifier is returned. -/
theorem submit_always_enqueues (st : OrchState) (task : AITask) :
    submit_task st task =
      ({ st with task_queue := st.task_queue ++ [task] }, task.task_id) := rfl

/-- C9: an exception raised by the routing/backend pipeline is caught at the
task boundary of `_execute_ai_task`: the task's status becomes `"failed"`, a
result record carrying the error detail is stored and retrievable through
`get_task_result` by the task identifier, and the drain loop still dispatches
every remaining queued task — the exception never propagates to terminate the
orchestration loop. -/
theorem task_exception_caught (route : AITask → Except String InfResult)
    (now : ℕ) (st : OrchState) (task : AITask) (e : String)
    (h : route { task with status := "running" } = Except.error e) :
    get_task_result (execute_ai_task route now st task) task.task_id =
      some (ResultRecord.failure e now) ∧
    (lookupA (execute_ai_task route now st task).active_tasks
        task.task_id).map AITask.status = some "failed" ∧
    ∀ (rest : List AITask) (st0 : OrchState),
      (process_task_queue_aux route now (task :: rest) st0).2 =
        task.task_id :: rest.map AITask.task_id := by
  refine ⟨?_, ?_, ?_⟩
  · simp only [execute_ai_task, get_task_result, h]
    exact lookupA_setA_self _ _ _
  · simp only [execute_ai_task, h]
    rw [lookupA_setA_self]
    rfl
  · intro rest st0
    exact process_task_queue_aux_trace route now (task :: rest) st0

/-- A backend pipeline that always raises. -/
def routeFail : AITask → Except String InfResult :=
  fun _ => Except.error "backend exploded"

/-- Witness for C9 at a concrete input: under an always-raising backend, the
concrete task `taskLow` ends `"failed"`, its error record is retrievable by
its identifier, and the loop goes on to dispatch the rest of the queue. -/
theorem task_exception_caught_witness :
    get_task_result (execute_ai_task routeFail 0 stEmpty taskLow) "low" =
      some (ResultRecord.failure "backend exploded" 0) ∧
    (lookupA (execute_ai_task routeFail 0 stEmpty taskLow).active_tasks
        "low").map AITask.status = some "failed" ∧
    (process_task_queue_aux routeFail 0 [taskLow, taskHigh] stEmpty).2 =
      ["low", "high"] := by
  have h := task_exception_caught routeFail 0 stEmpty taskLow "backend exploded" rfl
  exact ⟨h.1, h.2.1, h.2.2 [taskHigh] stEmpty⟩

/-! ## Trinity API server (`trinity_api_server.py`) -/

/-- Embedding of the `AgentStatus` enum. -/
inductive AgentStatus where
  | offline
  | initializing
  | online
  | processing
  | error
deriving DecidableEq, Repr

/-- Embedding of the `TrinityAgent` dataclass (source lines 35–50). -/
structure TrinityAgent where
  name : String
  agent_type : String
  status : AgentStatus
  last_heartbeat : ℕ
  processed_requests : ℕ
  error_count : ℕ
  capabilities : List String
deriving DecidableEq, Repr

/-- Embedding of the `ConsciousnessState` dataclass (source lines 52–61). -/
structure ConsciousnessState where
  awareness_level : ℚ
  quantum_coherence : ℚ
  neural_plasticity : ℚ
  memory_utilization : ℚ
  active_agents : ℕ
  total_processed : ℕ
  uptime_seconds : ℚ
  manhattan_protocol_active : Bool
deriving DecidableEq, Repr

/-- The `ConsciousnessState` built in `TrinityAIOrchestrator.__init__`
(source lines 68–77). -/
def consciousness_state_init : ConsciousnessState :=
  { awareness_level := 1.0, quantum_coherence := 0.95,
    neural_plasticity := 0.88, memory_utilization := 0.15,
    active_agents := 0, total_processed := 0, uptime_seconds := 0,
    manhattan_protocol_active := true }

/-- The log events `process_request` can emit (`logger.info` on a cache hit,
`logger.info` after successful processing, `logger.error` on a failure).  The
`cacheInconsistency` constructor is in the alphabet so that its absence is
statable: the source contains no cache-inconsistency logging at all and never
emits it. -/
inductive LogEvent where
  | cacheHit
  | processed (agent : String)
  | processingError (msg : String)
  | cacheInconsistency (fingerprint : String)
deriving DecidableEq, Repr

/-- Whether a log event is a cache-inconsistency event. -/
def is_cache_inconsistency : LogEvent → Bool
  | LogEvent.cacheInconsistency _ => true
  | _ => false

/-- Shape of the dict returned by `_generate_response` (source lines
186–205). -/
structure Response where
  agent : String
  response : String
  timestamp : ℕ
  processing_time : ℚ
  confidence : ℚ
  capabilities_used : List String
deriving DecidableEq, Repr

/-- The `TrinityAIOrchestrator` fields that `process_request` touches:
`agents` (a dict of agent records), `consciousness_state`, `response_cache`
(a dict keyed by fingerprint), plus the emitted log trace. -/
structure ServerState where
  agents : List (String × TrinityAgent)
  consciousness_state : ConsciousnessState
  response_cache : List (String × Response)
  log : List LogEvent
deriving DecidableEq, Repr

/-- Whether `pat` is an initial segment of the character list. -/
def list_has_pref : List Char → List Char → Bool
  | [], _ => true
  | _ :: _, [] => false
  | a :: as, b :: bs => a == b && list_has_pref as bs

/-- Whether `pat` occurs as a contiguous run inside the character list — the model of
Python's `pat in s` substring test. -/
def list_has_run (pat : List Char) : List Char → Bool
  | [] => list_has_pref pat []
  | c :: rest => list_has_pref pat (c :: rest) || list_has_run pat rest

/-- Python `kw in s` on strings. -/
def str_contains (s kw : String) : Bool := list_has_run kw.data s.data

/-- Python `any(keyword in prompt for keyword in kws)`. -/
def contains_any (s : String) (kws : List String) : Bool :=
  kws.any (fun kw => str_contains s kw)

/-- Embedding of `_route_request` (source lines 170–184): the lower-cased
prompt is scanned against three ordered keyword lists, first match wins,
defaulting to `"claude"`.  (The source also reads `request_data.get('type',
'general')` into a local that it never uses; that dead read is dropped.) -/
def route_request (request_data : List (String × String)) : String :=
  let prompt := ((lookupA request_data "prompt").getD "").toLower
  if contains_any prompt ["analyze", "strategy", "plan", "code"] then "claude"
  else if contains_any prompt ["creative", "image", "design", "art"] then "gemini"
  else if contains_any prompt ["search", "fact", "research", "find"] then "perplexity"
  else "claude"

/-- Embedding of `_generate_response` (source lines 186–205): an
agent-specific canned reply built from the first 100 characters of the
prompt; `capabilities_used` is the agent's first two capabilities. -/
def generate_response (agent_name : String) (agent : TrinityAgent)
    (request_data : List (String × String)) (now : ℕ) : Response :=
  let prompt := (lookupA request_data "prompt").getD ""
  let text :=
    if agent_name = "claude" then
      "🤖 Claude Strategic Analysis: " ++ prompt.take 100 ++ "..."
    else if agent_name = "gemini" then
      "🌟 Gemini Creative Synthesis: " ++ prompt.take 100 ++ "..."
    else if agent_name = "perplexity" then
      "🔍 Perplexity Knowledge Integration: " ++ prompt.take 100 ++ "..."
    else "Unknown agent response"
  { agent := agent_name, response := text, timestamp := now,
    processing_time := 0.5, confidence := 0.95,
    capabilities_used := agent.capabilities.take 2 }

/-- Key order used by `json.dumps(..., sort_keys=True)`: pairs compared by
their key. -/
def keyLe (a b : String × String) : Prop := a.1 ≤ b.1

instance : DecidableRel keyLe :=
  fun a b => (inferInstance : Decidable (a.1 ≤ b.1))

instance : IsTotal (String × String) keyLe := ⟨fun a b => le_total a.1 b.1⟩

instance : IsTrans (String × String) keyLe :=
  ⟨fun _ _ _ h1 h2 => le_trans h1 h2⟩

/-- One serialized `"key": "value"` JSON member. -/
def json_field (p : String × String) : String :=
  "\"" ++ p.1 ++ "\": \"" ++ p.2 ++ "\""

/-- Embedding of `json.dumps(request_data, sort_keys=True)` on a flat
string-to-string request dict (the shape `process_request` consumes): the
members are serialized with the keys in sorted order.  (String escaping
inside values is not modelled; it plays no role in any claim.) -/
def dumps_sorted (request_data : List (String × String)) : String :=
  "\x7b" ++ String.intercalate ", "
    ((List.insertionSort keyLe request_data).map json_field) ++ "\x7d"

/-- The MD5 digest of the canonical string, modelled as the canonical string
itself: the source uses the digest only as a dictionary key, equal inputs
give equal digests, and the digest's bit-level structure is never
inspected (MD5 collisions are not modelled). -/
def md5_hex (s : String) : String := s

/-- The cache key computed at source line 132:
`hashlib.md5(json.dumps(request_data, sort_keys=True).encode()).hexdigest()`. -/
def cache_key (request_data : List (String × String)) : String :=
  md5_hex (dumps_sorted request_data)

/-- The response-cache store at source line 159,
`self.response_cache[cache_key] = response`: a bare dictionary assignment.
The second component is the log events attached to the store itself — there
are none; no logging of any kind accompanies the assignment. -/
def store_response (cache : List (String × Response)) (k : String)
    (r : Response) : List (String × Response) × List LogEvent :=
  (setA cache k r, [])

/-- Embedding of `process_request` (source lines 126–168).  `gen` models the
awaited processing step (the latency sleep plus `_generate_response`, or a
real backend call), which is the code the `try`/`except` guards; the source's
concrete behavior is `gen_concrete` below.  On a cache hit the cached
response is returned immediately; otherwise the request is routed, the agent
is marked `processing` with a fresh heartbeat, and on success the metrics are
bumped and the response cached, while on an exception the agent's error count
is bumped and the exception re-raised (`Except.error`). -/
def process_request
    (gen : String → TrinityAgent → List (String × String) → ℕ → Except String Response)
    (now : ℕ) (st : ServerState) (request_data : List (String × String)) :
    Except String Response × ServerState :=
  let k := cache_key request_data
  match lookupA st.response_cache k with
  | some r => (Except.ok r, { st with log := st.log ++ [LogEvent.cacheHit] })
  | none =>
      let agent_name := route_request request_data
      match lookupA st.agents agent_name with
      | none => (Except.error ("Agent " ++ agent_name ++ " not available"), st)
      | some agent =>
          let agent1 :=
            { agent with status := AgentStatus.processing, last_heartbeat := now }
          let st1 := { st with agents := setA st.agents agent_name agent1 }
          match gen agent_name agent1 request_data now with
          | Except.ok response =>
              let agent2 :=
                { agent1 with
                  processed_requests := agent1.processed_requests + 1
                  status := AgentStatus.online }
              (Except.ok response,
                { st1 with
                  agents := setA st1.agents agent_name agent2
                  consciousness_state :=
                    { st1.consciousness_state with
                      total_processed := st1.consciousness_state.total_processed + 1 }
                  response_cache := (store_response st1.response_cache k response).1
                  log := st1.log ++ (store_response st1.response_cache k response).2
                           ++ [LogEvent.processed agent_name] })
          | Except.error e =>
              let agent2 :=
                { agent1 with
                  error_count := agent1.error_count + 1
                  status := AgentStatus.error }
              (Except.error e,
                { st1 with
                  agents := setA st1.agents agent_name agent2
                  log := st1.log ++ [LogEvent.processingError e] })

/-- The source's concrete processing step: always succeeds with
`_generate_response`. -/
def gen_concrete :
    String → TrinityAgent → List (String × String) → ℕ → Except String Response :=
  fun name agent request_data now =>
    Except.ok (generate_response name agent request_data now)

theorem nodup_keys_inj {l : List (String × String)}
    (hnd : (l.map Prod.fst).Nodup) {a b : String × String}
    (ha : a ∈ l) (hb : b ∈ l) (hfst : a.1 = b.1) : a = b :=
  List.inj_on_of_nodup_map hnd ha hb hfst

theorem sorted_perm_nodup_eq :
    ∀ {l₁ l₂ : List (String × String)}, l₁.Perm l₂ →
      (l₁.map Prod.fst).Nodup → l₁.Sorted keyLe → l₂.Sorted keyLe → l₁ = l₂ := by
  intro l₁
  induction l₁ with
  | nil =>
      intro l₂ hp _ _ _
      exact hp.symm.eq_nil.symm
  | cons a t₁ ih =>
      intro l₂ hp hnd hs₁ hs₂
      cases l₂ with
      | nil => exact absurd hp.eq_nil (by simp)
      | cons b t₂ =>
          have hb : b ∈ a :: t₁ := hp.symm.subset (List.mem_cons_self b t₂)
          have ha : a ∈ b :: t₂ := hp.subset (List.mem_cons_self a t₁)
          have hab1 : a.1 ≤ b.1 := by
            rcases List.mem_cons.mp hb with h | h
            · subst h; exact le_rfl
            · exact (List.sorted_cons.mp hs₁).1 b h
          have hab2 : b.1 ≤ a.1 := by
            rcases List.mem_cons.mp ha with h | h
            · subst h; exact le_rfl
            · exact (List.sorted_cons.mp hs₂).1 a h
          have hab : a = b :=
            nodup_keys_inj hnd (List.mem_cons_self a t₁) hb
              (le_antisymm hab1 hab2)
          subst hab
          have hp' : t₁.Perm t₂ := hp.cons_inv
          have hnd' : (t₁.map Prod.fst).Nodup := by
            simp only [List.map_cons, List.nodup_cons] at hnd
            exact hnd.2
          rw [ih hp' hnd' (List.sorted_cons.mp hs₁).2 (List.sorted_cons.mp hs₂).2]

theorem dumps_sorted_perm_eq {p q : List (String × String)}
    (hperm : p.Perm q) (hnd : (p.map Prod.fst).Nodup) :
    dumps_sorted p = dumps_sorted q := by
  have hps : (List.insertionSort keyLe p).Perm (List.insertionSort keyLe q) :=
    (List.perm_insertionSort keyLe p).trans
      (hperm.trans (List.perm_insertionSort keyLe q).symm)
  have hnd1 : ((List.insertionSort keyLe p).map Prod.fst).Nodup := by
    have hmap : ((List.insertionSort keyLe p).map Prod.fst).Perm (p.map Prod.fst) :=
      (List.perm_insertionSort keyLe p).map Prod.fst
    exact hmap.nodup_iff.mpr hnd
  have hsorted :=
    sorted_perm_nodup_eq hps hnd1 (List.sorted_insertionSort keyLe p)
      (List.sorted_insertionSort keyLe q)
  unfold dumps_sorted
  rw [hsorted]

/-- A cached response used in concrete inputs. -/
def respA : Response :=
  { agent := "claude", response := "answer one", timestamp := 0,
    processing_time := 0.5, confidence := 0.95, capabilities_used := [] }

/-- A materially different response for the same fingerprint. -/
def respB : Response := { respA with response := "answer two" }

/-- A cache that already holds `respA` under fingerprint `"fp"`. -/
def cacheC4 : List (String × Response) := [("fp", respA)]

/-- C4 counterexample: the cache already maps `"fp"` to `respA`; storing the
materially different `respB` under `"fp"` overwrites it and emits no log
event whatsoever — in particular no cache-inconsistency event.  The overwrite
is performed silently, contradicting the claim that it is explicitly logged. -/
theorem silent_overwrite :
    lookupA cacheC4 "fp" = some respA ∧
    respA ≠ respB ∧
    lookupA (store_response cacheC4 "fp" respB).1 "fp" = some respB ∧
    (store_response cacheC4 "fp" respB).2 = [] := by
  refine ⟨rfl, ?_, rfl, rfl⟩
  decide

/-- C4 (amended): storing a result under a fingerprint that already has a
different cache entry overwrites the old entry, but the overwrite is always
silent — the store is a bare dictionary assignment with no logging attached,
and no run of `process_request` ever emits a cache-inconsistency event.  (In
a sequential run `process_request` never actually stores over an existing
fingerprint, because a cache hit returns before the store is reached.) -/
theorem store_overwrites_silently
    (cache : List (String × Response)) (k : String) (r : Response)
    (gen : String → TrinityAgent → List (String × String) → ℕ → Except String Response)
    (now : ℕ) (st : ServerState) (p : List (String × String)) :
    lookupA (store_response cache k r).1 k = some r ∧
    (store_response cache k r).2 = [] ∧
    (process_request gen now st p).2.log.filter is_cache_inconsistency =
      st.log.filter is_cache_inconsistency := by
  refine ⟨lookupA_setA_self _ _ _, rfl, ?_⟩
  simp only [process_request]
  split
  · simp [List.filter_append, is_cache_inconsistency]
  · split
    · rfl
    · split
      · simp [store_response, List.filter_append, is_cache_inconsistency]
      · simp [List.filter_append, is_cache_inconsistency]

/-- A concrete request payload. -/
def payloadEx : List (String × String) :=
  [("prompt", "hello there"), ("type", "general")]

/-- The same payload with its fields in the opposite order. -/
def payloadExPerm : List (String × String) :=
  [("type", "general"), ("prompt", "hello there")]

/-- A server state whose response cache already holds `respA` under the
fingerprint of `payloadEx` (the state after a first successful request). -/
def stSrv : ServerState :=
  { agents := [], consciousness_state := consciousness_state_init,
    response_cache := [(cache_key payloadEx, respA)], log := [] }

/-- A processing step that fails if it is ever invoked; used to witness that
a cache hit never reaches any backend. -/
def gen_fail :
    String → TrinityAgent → List (String × String) → ℕ → Except String Response :=
  fun _ _ _ _ => Except.error "backend invoked"

/-- C7: two structurally identical request payloads whose fields are permuted
(with the distinct keys of a Python dict) get the identical fingerprint,
because `json.dumps(..., sort_keys=True)` canonicalizes key order before
hashing; consequently, when the first request's response is in the cache, the
permuted request is answered from the cache — the result and final state are
the same for every backend `gen`, no agent is touched and nothing but the
cache-hit log entry changes. -/
theorem fingerprint_order_independent
    (p q : List (String × String))
    (gen : String → TrinityAgent → List (String × String) → ℕ → Except String Response)
    (now : ℕ) (st : ServerState) (r : Response)
    (hperm : p.Perm q) (hnd : (p.map Prod.fst).Nodup)
    (hcache : lookupA st.response_cache (cache_key p) = some r) :
    cache_key p = cache_key q ∧
    (process_request gen now st q).1 = Except.ok r ∧
    (process_request gen now st q).2 =
      { st with log := st.log ++ [LogEvent.cacheHit] } := by
  have hkey : cache_key p = cache_key q := by
    unfold cache_key md5_hex
    exact dumps_sorted_perm_eq hperm hnd
  refine ⟨hkey, ?_, ?_⟩ <;>
    simp only [process_request, ← hkey, hcache]

/-- Witness for C7 at a concrete input: `payloadExPerm` permutes the fields
of `payloadEx`; the fingerprints agree and, with `respA` cached for
`payloadEx`, the permuted request is served from the cache even under a
backend that would fail if invoked. -/
theorem fingerprint_order_independent_witness :
    payloadEx.Perm payloadExPerm ∧
    (payloadEx.map Prod.fst).Nodup ∧
    lookupA stSrv.response_cache (cache_key payloadEx) = some respA ∧
    cache_key payloadEx = cache_key payloadExPerm ∧
    (process_request gen_fail 0 stSrv payloadExPerm).1 = Except.ok respA := by
  have hperm : payloadEx.Perm payloadExPerm := by
    unfold payloadEx payloadExPerm
    exact List.Perm.swap _ _ _
  have hnd : (payloadEx.map Prod.fst).Nodup := by decide
  have hcache : lookupA stSrv.response_cache (cache_key payloadEx) = some respA := by
    simp [stSrv, lookupA]
  have h := fingerprint_order_independent payloadEx payloadExPerm gen_fail 0
    stSrv respA hperm hnd hcache
  exact ⟨hperm, hnd, hcache, h.1, h.2.1⟩

/-- C10: when the request's fingerprint is already in the response cache,
`process_request` returns the cached value and leaves every backend metric
unchanged — the whole agents map (hence every agent's status,
`processed_requests` and `error_count`) is exactly as before, as is the
global `total_processed` counter and the cache itself. -/
theorem cache_hit_leaves_metrics_unchanged
    (gen : String → TrinityAgent → List (String × String) → ℕ → Except String Response)
    (now : ℕ) (st : ServerState) (p : List (String × String)) (r : Response)
    (h : lookupA st.response_cache (cache_key p) = some r) :
    (process_request gen now st p).1 = Except.ok r ∧
    (process_request gen now st p).2.agents = st.agents ∧
    (∀ name, lookupA (process_request gen now st p).2.agents name =
      lookupA st.agents name) ∧
    (process_request gen now st p).2.consciousness_state.total_processed =
      st.consciousness_state.total_processed ∧
    (process_request gen now st p).2.response_cache = st.response_cache := by
  simp [process_request, h]

/-- Witness for C10 at a concrete input: a repeat of `payloadEx` against
`stSrv` is answered from the cache and the agents map and global counter are
untouched, even under a backend that would fail if invoked. -/
theorem cache_hit_leaves_metrics_unchanged_witness :
    lookupA stSrv.response_cache (cache_key payloadEx) = some respA ∧
    (process_request gen_fail 0 stSrv payloadEx).1 = Except.ok respA ∧
    (process_request gen_fail 0 stSrv payloadEx).2.agents = stSrv.agents ∧
    (process_request gen_fail 0 stSrv payloadEx).2.consciousness_state.total_processed =
      stSrv.consciousness_state.total_processed := by
  have hcache : lookupA stSrv.response_cache (cache_key payloadEx) = some respA := by
    simp [stSrv, lookupA]
  have h := cache_hit_leaves_metrics_unchanged gen_fail 0 stSrv payloadEx respA hcache
  exact ⟨hcache, h.1, h.2.1, h.2.2.2.1⟩
